import Mathlib

/-!
Shallow embedding of the otc-operator reconciliation core.

Pure functions of the Go source are translated into Lean functions; every
interaction with an external collaborator (the Kubernetes object store, the
cloud SDK, the client factory, the wall clock) is passed in as an explicit
argument holding that collaborator's result for the call the code makes.
Only the fields that the embedded operations read or write are modelled.
-/

namespace Otc

/-- Mirror of metav1.Condition restricted to the fields the controller reads
and writes; `status` is the boolean value of the ConditionStatus and
`condType` stands for the Go field `Type` (a reserved word in Lean). -/
structure Condition where
  condType : String
  status : Bool
  reason : String
  message : String
  observedGeneration : Int
  deriving Repr, DecidableEq

/-- meta.SetStatusCondition: an upsert keyed by the condition type; an
existing entry is updated in place (insertion order preserved), otherwise the
condition is appended. -/
def setStatusCondition : List Condition → Condition → List Condition
  | [], c => [c]
  | x :: xs, c =>
    if x.condType = c.condType then c :: xs else x :: setStatusCondition xs c

/-- meta.FindStatusCondition. -/
def findStatusCondition (conditions : List Condition) (t : String) : Option Condition :=
  conditions.find? (fun c => c.condType = t)

/-- meta.IsStatusConditionTrue. -/
def isStatusConditionTrue (conditions : List Condition) (t : String) : Bool :=
  match findStatusCondition conditions t with
  | some c => c.status
  | none => false

def condReady : String := "Ready"

def condDependenciesReady : String := "DependenciesReady"

def condSynced : String := "Synced"

def reasonCreating : String := "Creating"

def reasonProvisioning : String := "Provisioning"

def reasonProvisioned : String := "Provisioned"

def reasonSynced : String := "Synced"

def reasonReady : String := "Ready"

def reasonStopped : String := "Stopped"

def reasonReconciling : String := "Reconciling"

def reasonDeleting : String := "Deleting"

def reasonDeleted : String := "Deleted"

def reasonDeletionBlocked : String := "DeletionBlocked"

def reasonOrphaned : String := "Orphaned"

def reasonUnknown : String := "Unknown"

def reasonFailed : String := "Failed"

def reasonProviderConfigError : String := "ProviderConfigError"

def reasonProviderError : String := "ProviderError"

def reasonProvisioningFailed : String := "ProvisioningFailed"

def reasonUpdateFailed : String := "UpdateFailed"

def reasonDeletionFailed : String := "DeletionFailed"

def reasonNotFound : String := "NotFound"

/-- The ConditionOption closures WithReason / WithMessage / WithMessagef
(the latter is WithMessage applied to the already-formatted string). -/
inductive ConditionOption where
  | withReason (reason : String)
  | withMessage (message : String)
  deriving Repr, DecidableEq

/-- The ConditionOptions record the option closures mutate. -/
structure ConditionOptions where
  Reason : String
  Message : String
  deriving Repr, DecidableEq

def applyOption (o : ConditionOptions) : ConditionOption → ConditionOptions
  | .withReason r => { o with Reason := r }
  | .withMessage m => { o with Message := m }

/-- applyOptions: fold the option overrides over the default reason/message. -/
def applyOptions (defaultReason defaultMessage : String)
    (opts : List ConditionOption) : String × String :=
  let options := opts.foldl applyOption ⟨defaultReason, defaultMessage⟩
  (options.Reason, options.Message)

/-- SetSynced from the condition state machine. -/
def SetSynced (conditions : List Condition) (generation : Int)
    (opts : List ConditionOption) : List Condition :=
  let rm := applyOptions reasonSynced "External resource matches desired state" opts
  setStatusCondition conditions ⟨condSynced, true, rm.1, rm.2, generation⟩

/-- SetNotSynced from the condition state machine. -/
def SetNotSynced (conditions : List Condition) (generation : Int)
    (opts : List ConditionOption) : List Condition :=
  let rm := applyOptions reasonReconciling "Resource is being reconciled" opts
  setStatusCondition conditions ⟨condSynced, false, rm.1, rm.2, generation⟩

/-- SetReady from the condition state machine. -/
def SetReady (conditions : List Condition) (generation : Int)
    (opts : List ConditionOption) : List Condition :=
  let rm := applyOptions reasonReady "Resource is ready" opts
  setStatusCondition conditions ⟨condReady, true, rm.1, rm.2, generation⟩

/-- SetNotReady from the condition state machine. -/
def SetNotReady (conditions : List Condition) (generation : Int)
    (opts : List ConditionOption) : List Condition :=
  let rm := applyOptions reasonFailed "Resource is not ready" opts
  setStatusCondition conditions ⟨condReady, false, rm.1, rm.2, generation⟩

/-- SetReconciliationFailed: SetNotSynced then SetNotReady with the same
options. -/
def SetReconciliationFailed (conditions : List Condition) (generation : Int)
    (opts : List ConditionOption) : List Condition :=
  SetNotReady (SetNotSynced conditions generation opts) generation opts

/-- SetSyncedAndReady: SetSynced then SetReady with defaults. -/
def SetSyncedAndReady (conditions : List Condition) (generation : Int) : List Condition :=
  SetReady (SetSynced conditions generation []) generation []

/-- SetCreating composite. -/
def SetCreating (conditions : List Condition) (generation : Int) : List Condition :=
  SetNotReady
    (SetNotSynced conditions generation
      [.withReason reasonCreating, .withMessage "Creating external resource"])
    generation
    [.withReason reasonCreating,
     .withMessage "Resource is being created and is not yet available"]

/-- SetProvisioning composite. -/
def SetProvisioning (conditions : List Condition) (generation : Int)
    (opts : List ConditionOption) : List Condition :=
  let rm := applyOptions reasonProvisioning "Resource is provisioning" opts
  SetNotReady
    (SetNotSynced conditions generation [.withReason rm.1, .withMessage rm.2])
    generation [.withReason rm.1, .withMessage rm.2]

/-- SetProvisioned composite (no overridable options in the source). -/
def SetProvisioned (conditions : List Condition) (generation : Int) : List Condition :=
  SetReady
    (SetSynced conditions generation
      [.withReason reasonProvisioned,
       .withMessage "External resource has been successfully provisioned"])
    generation
    [.withReason reasonProvisioned, .withMessage "Resource is ready for use"]

/-- SetUpdating composite. -/
def SetUpdating (conditions : List Condition) (generation : Int) : List Condition :=
  SetNotReady
    (SetNotSynced conditions generation
      [.withReason reasonReconciling,
       .withMessage "Updating external resource to match desired state"])
    generation
    [.withReason reasonReconciling, .withMessage "Resource is being updated"]

/-- SetTerminating composite. -/
def SetTerminating (conditions : List Condition) (generation : Int) : List Condition :=
  SetNotReady
    (SetNotSynced conditions generation
      [.withReason reasonDeleting, .withMessage "Resource deletion is in progress"])
    generation
    [.withReason reasonDeleting, .withMessage "Resource is being deleted"]

/-- SetDeletionBlocked composite: Synced=False and Ready=False with the
DeletionBlocked reason by default. -/
def SetDeletionBlocked (conditions : List Condition) (generation : Int)
    (opts : List ConditionOption) : List Condition :=
  let rm := applyOptions reasonDeletionBlocked
    "Resource deletion is blocked by dependencies" opts
  SetNotReady
    (SetNotSynced conditions generation [.withReason rm.1, .withMessage rm.2])
    generation [.withReason rm.1, .withMessage rm.2]

/-- SetDeleted composite: Synced=True, Ready=False. -/
def SetDeleted (conditions : List Condition) (generation : Int) : List Condition :=
  SetNotReady
    (SetSynced conditions generation
      [.withReason reasonDeleted,
       .withMessage "External resource has been successfully deleted"])
    generation
    [.withReason reasonDeleted, .withMessage "Resource is terminated"]

/-- SetOrphaned composite: Synced=True, Ready=False. -/
def SetOrphaned (conditions : List Condition) (generation : Int)
    (opts : List ConditionOption) : List Condition :=
  let rm := applyOptions reasonOrphaned
    "External resource was preserved due to orphanOnDelete policy" opts
  SetNotReady
    (SetSynced conditions generation [.withReason rm.1, .withMessage rm.2])
    generation
    [.withReason rm.1,
     .withMessage "Resource orphaned, no longer managed by operator"]

/-! ### Retry utility (internal/retry) -/

/-- Result of retry.Do: the wrapped function stopped retrying and Do returned
that final invocation's error (`done`, possibly nil), the sentinel
ErrMaxRetriesReached was returned, or the loop would run unbounded (only
reachable when MaxAttempts = 0, where the Go loop has no retry cap; the
context is modelled as never cancelled and the inter-attempt delay dropped). -/
inductive RetryOutcome (E : Type) where
  | done (err : Option E)
  | errMaxRetriesReached
  | unbounded
  deriving Repr, DecidableEq

/-- The retry.Do loop. `fn k` is the result (retry, err) of the k-th call of
the wrapped operation (k counted from 0); `k` plays the role of the Go
counter n (n = k after the increment), and `fuel` bounds the recursion
(maxAttempts is always enough fuel when maxAttempts > 0). -/
def retryLoop {E : Type} (fn : Nat → Bool × Option E) (maxAttempts : Nat) :
    Nat → Nat → RetryOutcome E
  | k, fuel =>
    if (fn k).1 = false then
      .done (fn k).2
    else if maxAttempts ≠ 0 ∧ k + 1 > maxAttempts then
      .errMaxRetriesReached
    else
      match fuel with
      | 0 => .unbounded
      | fuel' + 1 => retryLoop fn maxAttempts (k + 1) fuel'

/-- retry.Do with the option WithMaxAttempts applied. -/
def retryDo {E : Type} (fn : Nat → Bool × Option E) (maxAttempts : Nat) : RetryOutcome E :=
  retryLoop fn maxAttempts 0 maxAttempts

/-! ### API object model (api/v1alpha1), restricted to the fields the
embedded operations read or write -/

/-- ProviderConfigReference. -/
structure ProviderConfigReference where
  Name : String
  Namespace : String
  deriving Repr, DecidableEq

/-- corev1.LocalObjectReference. -/
structure LocalObjectReference where
  Name : String
  deriving Repr, DecidableEq

/-- metav1.LabelSelector, modelled by its MatchLabels map (the only part the
resolver inspects) together with the outcome of the external conversion
metav1.LabelSelectorAsSelector (none = conversion succeeded). -/
structure LabelSelector where
  MatchLabels : List (String × String)
  ConversionErr : Option String
  deriving Repr, DecidableEq

/-- NetworkSpec. -/
structure NetworkSpec where
  ProviderConfigRef : ProviderConfigReference
  Description : String
  Cidr : String
  OrphanOnDelete : Bool
  deriving Repr, DecidableEq

/-- NetworkStatus (LastSyncTime is an abstract timestamp). -/
structure NetworkStatus where
  Conditions : List Condition
  ExternalID : String
  ObservedGeneration : Int
  LastSyncTime : Option Nat
  LastAppliedSpec : Option NetworkSpec
  deriving Repr, DecidableEq

/-- Network object (Name/Namespace/Generation from ObjectMeta). -/
structure Network where
  Name : String
  Namespace : String
  Generation : Int
  Spec : NetworkSpec
  Status : NetworkStatus
  deriving Repr, DecidableEq

/-- SubnetDependencieskResolved (name kept verbatim from the source). -/
structure SubnetDependencieskResolved where
  NetworkID : String
  deriving Repr, DecidableEq

/-- SubnetStatus restricted to the fields read by the resolver and the
reference checks. -/
structure SubnetStatus where
  Conditions : List Condition
  ExternalID : String
  ResolvedDependencies : SubnetDependencieskResolved
  deriving Repr, DecidableEq

/-- Subnet object. -/
structure Subnet where
  Name : String
  Namespace : String
  Generation : Int
  Status : SubnetStatus
  deriving Repr, DecidableEq

/-- SecurityGroupStatus restricted to the fields read by the resolver. -/
structure SecurityGroupStatus where
  Conditions : List Condition
  ExternalID : String
  deriving Repr, DecidableEq

/-- SecurityGroup object. -/
structure SecurityGroup where
  Name : String
  Namespace : String
  Generation : Int
  Status : SecurityGroupStatus
  deriving Repr, DecidableEq

/-- NATGatewayDependenciesResolved. -/
structure NATGatewayDependenciesResolved where
  NetworkID : String
  SubnetID : String
  deriving Repr, DecidableEq

/-- NATGatewayStatus restricted to the fields read by the resolver and the
reference checks. -/
structure NATGatewayStatus where
  Conditions : List Condition
  ExternalID : String
  ResolvedDependencies : NATGatewayDependenciesResolved
  deriving Repr, DecidableEq

/-- NATGateway object. -/
structure NATGateway where
  Name : String
  Namespace : String
  Generation : Int
  Status : NATGatewayStatus
  deriving Repr, DecidableEq

/-- PublicIPStatus restricted to the fields read by the resolver. -/
structure PublicIPStatus where
  Conditions : List Condition
  ExternalID : String
  deriving Repr, DecidableEq

/-- PublicIP object. -/
structure PublicIP where
  Name : String
  Namespace : String
  Generation : Int
  Status : PublicIPStatus
  deriving Repr, DecidableEq

/-- SNATRuleSpec restricted to the mutable field relevant to drift. -/
structure SNATRuleSpec where
  Description : String
  OrphanOnDelete : Bool
  deriving Repr, DecidableEq

/-- SNATRuleDependenciesResolved. -/
structure SNATRuleDependenciesResolved where
  NATGatewayID : String
  SubnetID : String
  PublicIPID : String
  deriving Repr, DecidableEq

/-- SNATRuleStatus restricted to the fields read by the embedded operations. -/
structure SNATRuleStatus where
  Conditions : List Condition
  ExternalID : String
  ResolvedDependencies : SNATRuleDependenciesResolved
  LastAppliedSpec : Option SNATRuleSpec
  deriving Repr, DecidableEq

/-- SNATRule object. -/
structure SNATRule where
  Name : String
  Namespace : String
  Generation : Int
  Spec : SNATRuleSpec
  Status : SNATRuleStatus
  deriving Repr, DecidableEq

/-- SecurityGroupResolved. -/
structure SecurityGroupResolved where
  SecurityGroupID : String
  deriving Repr, DecidableEq

/-- SecurityGroupRuleSpec restricted to the mutable field relevant to drift. -/
structure SecurityGroupRuleSpec where
  Description : String
  deriving Repr, DecidableEq

/-- SecurityGroupRuleStatus restricted to the fields read by the embedded
operations. -/
structure SecurityGroupRuleStatus where
  Conditions : List Condition
  ExternalID : String
  ResolvedDependencies : SecurityGroupResolved
  LastAppliedSpec : Option SecurityGroupRuleSpec
  deriving Repr, DecidableEq

/-- SecurityGroupRule object. -/
structure SecurityGroupRule where
  Name : String
  Namespace : String
  Generation : Int
  Spec : SecurityGroupRuleSpec
  Status : SecurityGroupRuleStatus
  deriving Repr, DecidableEq

/-- NetworkDependency: three nilable variants. -/
structure NetworkDependency where
  NetworkID : Option String
  NetworkRef : Option LocalObjectReference
  NetworkSelector : Option LabelSelector
  deriving Repr, DecidableEq

/-- NATGatewayDependency: three nilable variants. -/
structure NATGatewayDependency where
  NATGatewayID : Option String
  NATGatewayRef : Option LocalObjectReference
  NATGatewaySelector : Option LabelSelector
  deriving Repr, DecidableEq

/-- PublicIPDependency: three nilable variants. -/
structure PublicIPDependency where
  PublicIPID : Option String
  PublicIPRef : Option LocalObjectReference
  PublicIPSelector : Option LabelSelector
  deriving Repr, DecidableEq

/-! ### Dependency resolver (internal/controller/dependency_resolver.go and
the shared helpers resolveByRef / resolveBySelector / checkReadinessAndGetID) -/

/-- Outcome of an object-store Get, the collaborator behind resolveByRef. -/
inductive StoreErr where
  | notFound
  | other (msg : String)
  deriving Repr, DecidableEq

/-- Render a store error the way the resolver wraps it into a message. -/
def StoreErr.render : StoreErr → String
  | .notFound => "not found"
  | .other msg => msg

/-- The distinct error shapes the resolver produces (each constructor stands
for one fmt.Errorf call site in the source). -/
inductive ResolveErr where
  | emptyMatchLabels
  | invalidLabelSelector (msg : String)
  | listFailed (msg : String)
  | noResourcesFound
  | expectedExactlyOne (found : Nat)
  | refGetFailed (context : String) (inner : StoreErr)
  | selectorFailed (context : String) (inner : ResolveErr)
  | unhandledDependencyType (kind : String)
  | notReadyNoExternalID (kind : String) (name : String)
  | notReadyConditionFalse (kind : String) (name : String)
  | noneSpecified (msg : String)
  deriving Repr, DecidableEq

/-- The client.Object sum the resolver's type switch discriminates on. -/
inductive KObject where
  | network (o : Network)
  | subnet (o : Subnet)
  | securityGroup (o : SecurityGroup)
  | natGateway (o : NATGateway)
  | publicIP (o : PublicIP)
  deriving Repr, DecidableEq

/-- The shared readiness checks run after the type switch of
checkReadinessAndGetID extracted externalID and conditions. -/
def checkReadinessFields (externalID : String) (conditions : List Condition)
    (name kind : String) : Except ResolveErr String :=
  if externalID = "" then
    .error (.notReadyNoExternalID kind name)
  else if isStatusConditionTrue conditions condReady = false then
    .error (.notReadyConditionFalse kind name)
  else
    .ok externalID

/-- checkReadinessAndGetID: the type switch handles Network, Subnet and
SecurityGroup; every other object kind falls into the default case and yields
the unhandled-dependency-type error. -/
def checkReadinessAndGetID (obj : KObject) (kind : String) : Except ResolveErr String :=
  match obj with
  | .network o => checkReadinessFields o.Status.ExternalID o.Status.Conditions o.Name kind
  | .subnet o => checkReadinessFields o.Status.ExternalID o.Status.Conditions o.Name kind
  | .securityGroup o => checkReadinessFields o.Status.ExternalID o.Status.Conditions o.Name kind
  | _ => .error (.unhandledDependencyType kind)

/-- resolveBySelector: requires non-empty MatchLabels, converts the selector,
lists in-namespace (the listing result is the collaborator input) and demands
exactly one match. -/
def resolveBySelector {α : Type} (selector : LabelSelector)
    (listResult : Except String (List α)) : Except ResolveErr α :=
  if selector.MatchLabels = [] then
    .error .emptyMatchLabels
  else
    match selector.ConversionErr with
    | some msg => .error (.invalidLabelSelector msg)
    | none =>
      match listResult with
      | .error msg => .error (.listFailed msg)
      | .ok items =>
        match items with
        | [] => .error .noResourcesFound
        | [x] => .ok x
        | x :: y :: rest => .error (.expectedExactlyOne (x :: y :: rest).length)

/-- The ref/selector/default part of ResolveNetwork's switch, reached whenever
the ID variant is nil or holds the empty string. `refGetResult` is the object
store's answer to the Get for a Network named by the reference;
`selectorListResult` is the in-namespace listing matching the selector. -/
def ResolveNetworkNoID (dep : NetworkDependency)
    (refGetResult : Except StoreErr Network)
    (selectorListResult : Except String (List Network)) : Except ResolveErr String :=
  match dep.NetworkRef with
  | some _ =>
    match refGetResult with
    | .error e => .error (.refGetFailed "failed to resolve network by reference" e)
    | .ok network => checkReadinessAndGetID (.network network) "Network"
  | none =>
    match dep.NetworkSelector with
    | some sel =>
      match resolveBySelector sel selectorListResult with
      | .error e => .error (.selectorFailed "failed to resolve network by selector" e)
      | .ok resolvedObject => checkReadinessAndGetID (.network resolvedObject) "Network"
    | none => .error (.noneSpecified "no network specified")

/-- ResolveNetwork: the ID variant wins only when non-nil and non-empty,
otherwise the switch falls through to the ref/selector/default cases. -/
def ResolveNetwork (dep : NetworkDependency)
    (refGetResult : Except StoreErr Network)
    (selectorListResult : Except String (List Network)) : Except ResolveErr String :=
  match dep.NetworkID with
  | some id =>
    if id ≠ "" then .ok id
    else ResolveNetworkNoID dep refGetResult selectorListResult
  | none => ResolveNetworkNoID dep refGetResult selectorListResult

/-- The ref/selector/default part of ResolveNATGateway's switch. NOTE
(verbatim from the source): the reference branch declares
`var sg otcv1alpha1.SecurityGroup` and fetches a SecurityGroup object named by
the NATGatewayRef, so `refGetResult` is a store Get for a SecurityGroup. -/
def ResolveNATGatewayNoID (dep : NATGatewayDependency)
    (refGetResult : Except StoreErr SecurityGroup)
    (selectorListResult : Except String (List NATGateway)) : Except ResolveErr String :=
  match dep.NATGatewayRef with
  | some _ =>
    match refGetResult with
    | .error e => .error (.refGetFailed "failed to resolve NAT gateway by reference" e)
    | .ok sg => checkReadinessAndGetID (.securityGroup sg) "NATGateway"
  | none =>
    match dep.NATGatewaySelector with
    | some sel =>
      match resolveBySelector sel selectorListResult with
      | .error e => .error (.selectorFailed "failed to resolve NAT gateway by selector" e)
      | .ok resolvedObject => checkReadinessAndGetID (.natGateway resolvedObject) "NATGateway"
    | none => .error (.noneSpecified "no NAT gateway specified")

/-- ResolveNATGateway (see ResolveNATGatewayNoID for the reference-branch
fetch of a SecurityGroup-typed object, kept verbatim from the source). -/
def ResolveNATGateway (dep : NATGatewayDependency)
    (refGetResult : Except StoreErr SecurityGroup)
    (selectorListResult : Except String (List NATGateway)) : Except ResolveErr String :=
  match dep.NATGatewayID with
  | some id =>
    if id ≠ "" then .ok id
    else ResolveNATGatewayNoID dep refGetResult selectorListResult
  | none => ResolveNATGatewayNoID dep refGetResult selectorListResult

/-- The ref/selector/default part of ResolvePublicIP's switch. NOTE (verbatim
from the source): the reference branch declares
`var sg otcv1alpha1.SecurityGroup` and fetches a SecurityGroup object named by
the PublicIPRef. -/
def ResolvePublicIPNoID (dep : PublicIPDependency)
    (refGetResult : Except StoreErr SecurityGroup)
    (selectorListResult : Except String (List PublicIP)) : Except ResolveErr String :=
  match dep.PublicIPRef with
  | some _ =>
    match refGetResult with
    | .error e => .error (.refGetFailed "failed to resolve public IP by reference" e)
    | .ok sg => checkReadinessAndGetID (.securityGroup sg) "PublicIP"
  | none =>
    match dep.PublicIPSelector with
    | some sel =>
      match resolveBySelector sel selectorListResult with
      | .error e => .error (.selectorFailed "failed to resolve public IP by selector" e)
      | .ok resolvedObject => checkReadinessAndGetID (.publicIP resolvedObject) "PublicIP"
    | none => .error (.noneSpecified "no public IP specified")

/-- ResolvePublicIP (see ResolvePublicIPNoID for the reference-branch fetch of
a SecurityGroup-typed object, kept verbatim from the source). -/
def ResolvePublicIP (dep : PublicIPDependency)
    (refGetResult : Except StoreErr SecurityGroup)
    (selectorListResult : Except String (List PublicIP)) : Except ResolveErr String :=
  match dep.PublicIPID with
  | some id =>
    if id ≠ "" then .ok id
    else ResolvePublicIPNoID dep refGetResult selectorListResult
  | none => ResolvePublicIPNoID dep refGetResult selectorListResult

/-! ### Provider client cache (internal/controller/provider.go) -/

/-- ProviderConfigSpec restricted to the credentials reference the cache
reads. -/
structure ProviderConfigSpec where
  CredentialsSecretRef : LocalObjectReference
  deriving Repr, DecidableEq

/-- ProviderConfig object. -/
structure ProviderConfig where
  Name : String
  Namespace : String
  Generation : Int
  Spec : ProviderConfigSpec
  deriving Repr, DecidableEq

/-- corev1.Secret restricted to its resource version token. -/
structure Secret where
  ResourceVersion : String
  deriving Repr, DecidableEq

/-- providerEntry: one cached client (identified by a number standing for the
constructed provider.Provider value) with its creation metadata. -/
structure ProviderEntry where
  provider : Nat
  createdAt : Nat
  configGeneration : Int
  secretResourceVersion : String
  deriving Repr, DecidableEq

/-- The cache map keyed by the interpolated "namespace/name" string. -/
abbrev ProviderCacheMap := List (String × ProviderEntry)

/-- Go map read m[k]. -/
def cacheFind : ProviderCacheMap → String → Option ProviderEntry
  | [], _ => none
  | (k', e) :: rest, k => if k' = k then some e else cacheFind rest k

/-- Go map assignment m[k] = e (replace in place, else append). -/
def cacheSet : ProviderCacheMap → String → ProviderEntry → ProviderCacheMap
  | [], k, e => [(k, e)]
  | (k', e') :: rest, k, e =>
    if k' = k then (k, e) :: rest else (k', e') :: cacheSet rest k e

/-- Go delete(m, k). -/
def cacheDel : ProviderCacheMap → String → ProviderCacheMap
  | [], _ => []
  | (k', e') :: rest, k =>
    if k' = k then cacheDel rest k else (k', e') :: cacheDel rest k

/-- The cache key "namespace/name", defaulting the namespace. -/
def providerCacheKey (ref : ProviderConfigReference) (defaultNamespace : String) : String :=
  let ns := if ref.Namespace = "" then defaultNamespace else ref.Namespace
  ns ++ "/" ++ ref.Name

/-- Errors GetOrCreate can return. -/
inductive GetOrCreateErr where
  | failedToGetProviderConfig (cacheKey : String) (inner : StoreErr)
  | newClientFailed (msg : String)
  deriving Repr, DecidableEq

/-- The create-and-store tail of GetOrCreate: construct a new client via the
external factory (provider.NewFromProviderConfig); a construction error is
returned with the cache untouched, a success is stored, replacing any prior
entry for the key. -/
def GetOrCreateNew (cache : ProviderCacheMap) (cacheKey : String)
    (pc : ProviderConfig) (currentSecretVersion : String)
    (factoryResult : Except String Nat) (now : Nat) :
    Except GetOrCreateErr (Nat × ProviderConfig) × ProviderCacheMap :=
  match factoryResult with
  | .error msg => (.error (.newClientFailed msg), cache)
  | .ok prov =>
    (.ok (prov, pc),
     cacheSet cache cacheKey ⟨prov, now, pc.Generation, currentSecretVersion⟩)

/-- The best-effort secret version read: a store failure is ignored, leaving
an empty version token. -/
def secretVersionOf (secretResult : Except StoreErr Secret) : String :=
  match secretResult with
  | .ok secret => secret.ResourceVersion
  | .error _ => ""

/-- ProviderCache.GetOrCreate. `pcResult` is the store Get of the
ProviderConfig, `secretResult` the best-effort store Get of the credentials
secret, `factoryResult` the outcome of constructing a fresh client, `now` the
wall clock. Returns the call's result together with the new cache map. -/
def GetOrCreate (cache : ProviderCacheMap) (ref : ProviderConfigReference)
    (defaultNamespace : String)
    (pcResult : Except StoreErr ProviderConfig)
    (secretResult : Except StoreErr Secret)
    (factoryResult : Except String Nat) (now : Nat) :
    Except GetOrCreateErr (Nat × ProviderConfig) × ProviderCacheMap :=
  let cacheKey := providerCacheKey ref defaultNamespace
  match pcResult with
  | .error .notFound =>
    (.error (.failedToGetProviderConfig cacheKey .notFound), cacheDel cache cacheKey)
  | .error (.other msg) =>
    (.error (.failedToGetProviderConfig cacheKey (.other msg)), cache)
  | .ok pc =>
    let currentSecretVersion := secretVersionOf secretResult
    match cacheFind cache cacheKey with
    | some entry =>
      if entry.configGeneration = pc.Generation ∧
          entry.secretResourceVersion = currentSecretVersion then
        (.ok (entry.provider, pc), cache)
      else
        GetOrCreateNew cache cacheKey pc currentSecretVersion factoryResult now
    | none => GetOrCreateNew cache cacheKey pc currentSecretVersion factoryResult now

/-- ProviderCache.Invalidate: unconditionally evict the key. -/
def Invalidate (cache : ProviderCacheMap) (ref : ProviderConfigReference)
    (defaultNamespace : String) : ProviderCacheMap :=
  cacheDel cache (providerCacheKey ref defaultNamespace)

/-! ### Generic reconciler (shared Reconciler methods) -/

/-- ctrl.Result; RequeueAfter counts seconds. -/
structure CtrlResult where
  Requeue : Bool := false
  RequeueAfter : Nat := 0
  deriving Repr, DecidableEq

def networkRequeueDelay : Nat := 30

/-- Go fmt %v rendering of a []string, used in the DeletionBlocked message. -/
def formatStrings (xs : List String) : String :=
  "[" ++ String.intercalate " " xs ++ "]"

/-- The loop body of BlockOnAnyReference: each element of `checks` is one
ReferenceCheck, already run against the store — its Resource() name paired
with either the listing failure or the names of referencing objects.
`allRefs` is the running aggregate. Returns (blocked, result, err, conditions). -/
def blockLoop (generation : Int) (requeueAfter : Nat) :
    List Condition → List String → List (String × Except String (List String)) →
    Bool × CtrlResult × Option String × List Condition
  | conditions, allRefs, [] =>
    if allRefs.length > 0 then
      (true, { RequeueAfter := requeueAfter }, none,
        SetDeletionBlocked conditions generation
          [.withMessage ("Still referenced by " ++ formatStrings allRefs)])
    else
      (false, {}, none, conditions)
  | conditions, allRefs, (resource, checkResult) :: rest =>
    match checkResult with
    | .error e =>
      (true, { RequeueAfter := requeueAfter }, some e,
        SetReconciliationFailed conditions generation
          [.withMessage ("Failed reference check (" ++ resource ++ "): " ++ e)])
    | .ok names =>
      blockLoop generation requeueAfter conditions
        (if names.length > 0 then allRefs ++ names else allRefs) rest

/-- Reconciler.BlockOnAnyReference. -/
def BlockOnAnyReference (conditions : List Condition) (generation : Int)
    (requeueAfter : Nat) (checks : List (String × Except String (List String))) :
    Bool × CtrlResult × Option String × List Condition :=
  blockLoop generation requeueAfter conditions [] checks

/-- SubnetNetworkReferenceCheck.Check run against the in-namespace listing
(collaborator input): names of Subnets whose resolved NetworkID equals the
target external ID; a listing failure is wrapped. -/
def SubnetNetworkReferenceCheck (listResult : Except String (List Subnet))
    (externalID : String) : Except String (List String) :=
  match listResult with
  | .error e => .error ("list Subnets: " ++ e)
  | .ok items =>
    .ok (((items.filter
      (fun item => item.Status.ResolvedDependencies.NetworkID = externalID)).map
        (fun item => item.Name)))

/-- NATGatewayNetworkReferenceCheck.Check run against the in-namespace
listing: names of NATGateways whose resolved NetworkID equals the target. -/
def NATGatewayNetworkReferenceCheck (listResult : Except String (List NATGateway))
    (externalID : String) : Except String (List String) :=
  match listResult with
  | .error e => .error ("list NATGateways: " ++ e)
  | .ok items =>
    .ok (((items.filter
      (fun item => item.Status.ResolvedDependencies.NetworkID = externalID)).map
        (fun item => item.Name)))

/-- SNATRuleNetworkReferenceCheck.Check run against the in-namespace listing:
names of SNATRules whose resolved NATGatewayID equals the target. -/
def SNATRuleNetworkReferenceCheck (listResult : Except String (List SNATRule))
    (externalID : String) : Except String (List String) :=
  match listResult with
  | .error e => .error ("list SNATRules: " ++ e)
  | .ok items =>
    .ok (((items.filter
      (fun item => item.Status.ResolvedDependencies.NATGatewayID = externalID)).map
        (fun item => item.Name)))

/-- Outcome of providers.GetOrCreate as seen inside Reconciler.Delete. -/
inductive AcquireOutcome where
  | ok
  | errNotFound
  | errOther (msg : String)
  deriving Repr, DecidableEq

/-- What one run of Reconciler.Delete did: whether the deletion callback fn
was invoked, the final condition set, whether the finalizer was removed, the
returned ctrl.Result and error. The status patch and the finalizer-removing
store update are modelled as succeeding. -/
structure DeleteOutcome where
  callbackInvoked : Bool
  conditions : List Condition
  finalizerRemoved : Bool
  result : CtrlResult
  err : Option String
  deriving Repr, DecidableEq

/-- Reconciler.Delete: short-circuits when the finalizer is already gone,
marks Terminating, acquires the provider client (`acquire`), and unless
orphanOnDelete is set it invokes the deletion callback for a non-empty
external ID (`callbackErr` is that callback's result); on success it marks
Deleted, on orphaning it marks Orphaned, and it finally removes the
finalizer. -/
def ReconcilerDelete (conditions : List Condition) (generation : Int)
    (requeueAfter : Nat) (finalizerPresent : Bool) (orphanOnDelete : Bool)
    (externalID : String) (acquire : AcquireOutcome)
    (callbackErr : Option String) : DeleteOutcome :=
  if finalizerPresent = false then
    ⟨false, conditions, false, {}, none⟩
  else
    let conditions := SetTerminating conditions generation
    match acquire with
    | .errNotFound =>
      let conditions := SetOrphaned conditions generation
        [.withMessage "Resource was orphaned because ProviderConfig was not found"]
      ⟨false, conditions, true, {}, none⟩
    | .errOther msg =>
      let conditions := SetNotSynced conditions generation
        [.withReason reasonDeletionFailed,
         .withMessage ("Cannot access provider: " ++ msg)]
      let conditions := SetNotReady conditions generation
        [.withReason reasonDeletionFailed,
         .withMessage "Deletion blocked by provider error"]
      ⟨false, conditions, false, { RequeueAfter := requeueAfter }, none⟩
    | .ok =>
      if orphanOnDelete = false ∧ externalID ≠ "" then
        match callbackErr with
        | some msg =>
          let conditions := SetNotSynced conditions generation
            [.withReason reasonDeletionFailed, .withMessage msg]
          let conditions := SetNotReady conditions generation
            [.withReason reasonDeletionFailed,
             .withMessage "External resource deletion failed"]
          ⟨true, conditions, false, { RequeueAfter := requeueAfter }, some msg⟩
        | none =>
          let conditions := SetDeleted conditions generation
          ⟨true, conditions, true, {}, none⟩
      else if orphanOnDelete then
        let conditions := SetOrphaned conditions generation []
        ⟨false, conditions, true, {}, none⟩
      else
        ⟨false, conditions, true, {}, none⟩

/-! ### Provider boundary for networks (internal/provider/network.go) -/

/-- provider.State. -/
inductive State where
  | Unknown
  | Provisioning
  | Ready
  | Stopped
  | Failed
  deriving Repr, DecidableEq

/-- provider.NetworkInfo. -/
structure NetworkInfo where
  ID : String
  Name : String
  Description : String
  Cidr : String
  Status : String
  deriving Repr, DecidableEq

/-- NetworkInfo.State: the fixed mapping from raw provider status strings. -/
def NetworkInfo.State (i : NetworkInfo) : State :=
  match i.Status with
  | "ACTIVE" | "OK" => .Ready
  | "DOWN" | "ERROR" | "error" => .Failed
  | "CREATING" => .Provisioning
  | _ => .Unknown

/-- NetworkInfo.Message. -/
def NetworkInfo.Message (i : NetworkInfo) : String :=
  match i.State with
  | .Ready => "Network is active"
  | .Failed => "Network is in a failed state: " ++ i.Status
  | .Provisioning => "Network busy with status: " ++ i.Status
  | _ => "Network is in an unhandled state: " ++ i.Status

/-- Raw VPC record the cloud SDK returns from vpcs.Get(...).Extract(). -/
structure Vpc where
  ID : String
  Name : String
  Description : String
  CIDR : String
  Status : String
  deriving Repr, DecidableEq

/-- Outcome of the SDK call vpcs.Get(client, id).Extract(): success, a 404
(gophercloud.ErrDefault404), or some other error. -/
inductive SdkGetOutcome where
  | ok (vpc : Vpc)
  | err404
  | err (msg : String)
  deriving Repr, DecidableEq

/-- The errors provider.GetNetwork can return. -/
inductive ProviderErr where
  | errNotFound
  | errFailedToCreate
  | wrap (context : String) (msg : String)
  deriving Repr, DecidableEq

/-- Render a provider error the way %v does for the condition messages. -/
def ProviderErr.render : ProviderErr → String
  | .errNotFound => "not found"
  | .errFailedToCreate => "failed to create"
  | .wrap context msg => context ++ ": " ++ msg

/-- provider.GetNetwork, modelling the Go pair (info *NetworkInfo, err error):
a 404 from the SDK yields (nil, ErrNotFound); any other error is wrapped; on
success the NetworkInfo is built from the raw VPC and the error is nil. -/
def GetNetwork (remote : SdkGetOutcome) : Option NetworkInfo × Option ProviderErr :=
  match remote with
  | .err404 => (none, some .errNotFound)
  | .err msg => (none, some (.wrap "failed to get network" msg))
  | .ok vpc => (some ⟨vpc.ID, vpc.Name, vpc.Description, vpc.CIDR, vpc.Status⟩, none)

/-! ### Network controller (NetworkReconciler) -/

/-- Provider UpdateNetworkRequest. -/
structure UpdateNetworkRequest where
  Description : String
  deriving Repr, DecidableEq

/-- Replace a network's condition set. -/
def Network.setConditions (n : Network) (conditions : List Condition) : Network :=
  { n with Status := { n.Status with Conditions := conditions } }

/-- NetworkReconciler.detectDrift: compares only the description against the
baseline; the nil-baseline arm is never reached because reconcileUpdate
establishes a baseline first (the Go code would dereference nil there). -/
def NetworkDetectDrift (network : Network) : UpdateNetworkRequest × Bool :=
  match network.Status.LastAppliedSpec with
  | none => (⟨""⟩, false)
  | some lastAppliedSpec =>
    if network.Spec.Description ≠ lastAppliedSpec.Description then
      (⟨network.Spec.Description⟩, true)
    else
      (⟨""⟩, false)

/-- NetworkReconciler.handleDrift: mark Updating, apply the update through the
provider (`updateNetworkErr` is that call's result), refresh the baseline on
success and requeue immediately. -/
def NetworkHandleDrift (network : Network) (_req : UpdateNetworkRequest)
    (updateNetworkErr : Option String) : Network × CtrlResult :=
  let network := network.setConditions
    (SetUpdating network.Status.Conditions network.Generation)
  match updateNetworkErr with
  | some msg =>
    (network.setConditions
      (SetReconciliationFailed network.Status.Conditions network.Generation
        [.withReason reasonUpdateFailed,
         .withMessage ("Failed to update resource: " ++ msg)]),
     { RequeueAfter := networkRequeueDelay })
  | none =>
    ({ network with Status := { network.Status with LastAppliedSpec := some network.Spec } },
     { Requeue := true })

/-- NetworkReconciler.checkReadiness: classify the live resource's state;
`now` is the wall clock stamped into LastSyncTime on the Ready arm. -/
def NetworkCheckReadiness (network : Network) (info : NetworkInfo) (now : Nat) :
    Network × CtrlResult :=
  match info.State with
  | .Ready =>
    let isNewlyProvisioned := network.Status.LastSyncTime.isNone
    let network := { network with Status := { network.Status with LastSyncTime := some now } }
    if isNewlyProvisioned then
      (network.setConditions (SetProvisioned network.Status.Conditions network.Generation), {})
    else
      (network.setConditions (SetSyncedAndReady network.Status.Conditions network.Generation), {})
  | .Failed =>
    (network.setConditions
      (SetReconciliationFailed network.Status.Conditions network.Generation
        [.withReason reasonFailed, .withMessage info.Message]),
     { RequeueAfter := networkRequeueDelay })
  | .Provisioning =>
    (network.setConditions
      (SetProvisioning network.Status.Conditions network.Generation
        [.withMessage info.Message]),
     { RequeueAfter := networkRequeueDelay })
  | _ =>
    (network.setConditions
      (SetReconciliationFailed network.Status.Conditions network.Generation
        [.withReason reasonUnknown, .withMessage info.Message]),
     { RequeueAfter := networkRequeueDelay })

/-- NetworkReconciler.reconcileUpdate: establish a baseline if absent; fetch
the live external resource (`getResult` is provider.GetNetwork's pair); on a
non-nil error report a ProviderError reconciliation failure; on nil info
treat the resource as deleted out-of-band and reset external ID and baseline;
otherwise run drift detection and either apply the update or classify
readiness. -/
def NetworkReconcileUpdate (network : Network)
    (getResult : Option NetworkInfo × Option ProviderErr)
    (updateNetworkErr : Option String) (now : Nat) : Network × CtrlResult :=
  match network.Status.LastAppliedSpec with
  | none =>
    ({ network with Status := { network.Status with LastAppliedSpec := some network.Spec } },
     { Requeue := true })
  | some _ =>
    match getResult.2 with
    | some e =>
      (network.setConditions
        (SetReconciliationFailed network.Status.Conditions network.Generation
          [.withReason reasonProviderError,
           .withMessage ("Failed to check existing Network: " ++ e.render)]),
       { RequeueAfter := networkRequeueDelay })
    | none =>
      match getResult.1 with
      | none =>
        let conditions := SetNotSynced network.Status.Conditions network.Generation
          [.withReason reasonNotFound,
           .withMessage ("External resource with ID " ++ network.Status.ExternalID ++
             " was not found and will be recreated")]
        let conditions := SetNotReady conditions network.Generation
          [.withReason reasonNotFound, .withMessage "Resource needs to be recreated"]
        ({ network with Status :=
            { network.Status with
                Conditions := conditions, ExternalID := "", LastAppliedSpec := none } },
         { Requeue := true })
      | some info =>
        let dd := NetworkDetectDrift network
        if dd.2 then
          NetworkHandleDrift network dd.1 updateNetworkErr
        else
          NetworkCheckReadiness network info now

/-- What NetworkReconciler.reconcileDelete decided: either it called
rc.Delete (the only place that can invoke the provider deletion callback or
remove the finalizer) with the given orphan flag and external ID, or it
returned early because the reference guard blocked deletion. -/
inductive NetworkDeleteDecision where
  | delete (orphanOnDelete : Bool) (externalID : String)
  | blocked (result : CtrlResult) (err : Option String)
  deriving Repr, DecidableEq

/-- NetworkReconciler.reconcileDelete: with an empty external ID it proceeds
straight to rc.Delete with a no-op callback; otherwise it runs the reference
guard over the Subnet and NATGateway checks (their in-namespace listings are
the collaborator inputs) and proceeds to rc.Delete only when not blocked.
Returns the decision and the condition set after the guard. -/
def NetworkReconcileDelete (network : Network)
    (subnetListResult : Except String (List Subnet))
    (natGatewayListResult : Except String (List NATGateway)) :
    NetworkDeleteDecision × List Condition :=
  if network.Status.ExternalID = "" then
    (.delete network.Spec.OrphanOnDelete network.Status.ExternalID,
     network.Status.Conditions)
  else
    let guard := BlockOnAnyReference network.Status.Conditions network.Generation
      networkRequeueDelay
      [("Subnets", SubnetNetworkReferenceCheck subnetListResult network.Status.ExternalID),
       ("NATGateways",
        NATGatewayNetworkReferenceCheck natGatewayListResult network.Status.ExternalID)]
    if guard.1 then
      (.blocked guard.2.1 guard.2.2.1, guard.2.2.2)
    else
      (.delete network.Spec.OrphanOnDelete network.Status.ExternalID, guard.2.2.2)

/-! ### Drift-detection stubs (SNATRule, SecurityGroupRule, PublicIP) -/

/-- Provider UpdateSNATRuleRequest (an empty struct in the source). -/
structure UpdateSNATRuleRequest where
  deriving Repr, DecidableEq

/-- Provider UpdatePublicIPRequest (an empty struct in the source). -/
structure UpdatePublicIPRequest where
  deriving Repr, DecidableEq

/-- Provider UpdateSecurityGroupRuleRequest. -/
structure UpdateSecurityGroupRuleRequest where
  Description : String
  deriving Repr, DecidableEq

/-- SNATRuleReconciler.detectDrift: always (zero request, false). -/
def SNATRuleDetectDrift (_ : SNATRule) : UpdateSNATRuleRequest × Bool :=
  (⟨⟩, false)

/-- PublicIPReconciler.detectDrift: always (zero request, false). -/
def PublicIPDetectDrift (_ : PublicIP) : UpdatePublicIPRequest × Bool :=
  (⟨⟩, false)

/-- SecurityGroupRuleReconciler.detectDrift: always (zero request, false). -/
def SecurityGroupRuleDetectDrift (_ : SecurityGroupRule) :
    UpdateSecurityGroupRuleRequest × Bool :=
  (⟨""⟩, false)

/-! ### Helper lemmas about the condition upsert -/

theorem findStatusCondition_setStatusCondition_same (l : List Condition)
    (t : String) (s : Bool) (r m : String) (g : Int) :
    findStatusCondition (setStatusCondition l ⟨t, s, r, m, g⟩) t = some ⟨t, s, r, m, g⟩ := by
  induction l with
  | nil => simp [setStatusCondition, findStatusCondition]
  | cons x xs ih =>
    by_cases h : x.condType = t
    · simp [setStatusCondition, h, findStatusCondition]
    · simp only [setStatusCondition, findStatusCondition] at ih ⊢
      simp [h, ih]

theorem findStatusCondition_setStatusCondition_ne (l : List Condition)
    (c : Condition) (t : String) (h : t ≠ c.condType) :
    findStatusCondition (setStatusCondition l c) t = findStatusCondition l t := by
  induction l with
  | nil => simp [setStatusCondition, findStatusCondition, List.find?, Ne.symm h]
  | cons x xs ih =>
    by_cases hx : x.condType = c.condType
    · have hxt : x.condType ≠ t := by rw [hx]; exact fun hh => h hh.symm
      simp [setStatusCondition, hx, findStatusCondition, List.find?, Ne.symm h, hxt]
    · by_cases hxt : x.condType = t
      · simp [setStatusCondition, hx, findStatusCondition, List.find?, hxt, h]
      · simp only [setStatusCondition, findStatusCondition] at ih ⊢
        simp [hx, hxt, ih]

theorem find_SetSynced_at_synced (l : List Condition) (g : Int)
    (opts : List ConditionOption) :
    (findStatusCondition (SetSynced l g opts) condSynced).map Condition.status = some true := by
  simp [SetSynced, findStatusCondition_setStatusCondition_same]

theorem find_SetNotSynced_at_synced (l : List Condition) (g : Int)
    (opts : List ConditionOption) :
    (findStatusCondition (SetNotSynced l g opts) condSynced).map Condition.status = some false := by
  simp [SetNotSynced, findStatusCondition_setStatusCondition_same]

theorem find_SetReady_at_ready (l : List Condition) (g : Int)
    (opts : List ConditionOption) :
    (findStatusCondition (SetReady l g opts) condReady).map Condition.status = some true := by
  simp [SetReady, findStatusCondition_setStatusCondition_same]

theorem find_SetNotReady_at_ready (l : List Condition) (g : Int)
    (opts : List ConditionOption) :
    (findStatusCondition (SetNotReady l g opts) condReady).map Condition.status = some false := by
  simp [SetNotReady, findStatusCondition_setStatusCondition_same]

theorem find_SetReady_at_synced (l : List Condition) (g : Int)
    (opts : List ConditionOption) :
    findStatusCondition (SetReady l g opts) condSynced = findStatusCondition l condSynced := by
  have hne : condSynced ≠ condReady := by decide
  simp only [SetReady]
  exact findStatusCondition_setStatusCondition_ne _ _ _ hne

theorem find_SetNotReady_at_synced (l : List Condition) (g : Int)
    (opts : List ConditionOption) :
    findStatusCondition (SetNotReady l g opts) condSynced = findStatusCondition l condSynced := by
  have hne : condSynced ≠ condReady := by decide
  simp only [SetNotReady]
  exact findStatusCondition_setStatusCondition_ne _ _ _ hne

/-- The aggregate of referencing names over successful checks, in check
order: the value the guard's loop accumulates in allRefs when no check
fails. -/
def gatherRefs : List (String × Except String (List String)) → List String
  | [] => []
  | (_, .ok names) :: rest => names ++ gatherRefs rest
  | (_, .error _) :: rest => gatherRefs rest

/-! ### Helper lemmas about the cache map -/

theorem cacheFind_cacheDel_self (cache : ProviderCacheMap) (k : String) :
    cacheFind (cacheDel cache k) k = none := by
  induction cache with
  | nil => simp [cacheDel, cacheFind]
  | cons x rest ih =>
    by_cases h : x.1 = k
    · simpa [cacheDel, h] using ih
    · simpa [cacheDel, h, cacheFind] using ih

/-! ### Helper lemmas about the retry loop -/

theorem retryLoop_sentinel {E : Type} (fn : Nat → Bool × Option E) (m : Nat)
    (hm : 0 < m) :
    ∀ fuel k, k + fuel = m → (∀ i, i ≤ m → (fn i).1 = true) →
      retryLoop fn m k fuel = .errMaxRetriesReached := by
  intro fuel
  induction fuel with
  | zero =>
    intro k hk hall
    have h1 : (fn k).1 = true := hall k (by omega)
    have h2 : m ≠ 0 ∧ k + 1 > m := by omega
    rw [retryLoop]
    simp [h1, h2]
  | succ fuel ih =>
    intro k hk hall
    have h1 : (fn k).1 = true := hall k (by omega)
    have h2 : ¬(m ≠ 0 ∧ k + 1 > m) := by omega
    rw [retryLoop]
    simp only [h1, h2, if_true, if_false, Bool.true_eq_false, ite_false]
    exact ih (k + 1) (by omega) hall

theorem retryLoop_done {E : Type} (fn : Nat → Bool × Option E) (m j : Nat)
    (hj : j ≤ m) (hfalse : (fn j).1 = false) :
    ∀ fuel k, k + fuel = m → k ≤ j →
      (∀ i, k ≤ i → i < j → (fn i).1 = true) →
      retryLoop fn m k fuel = .done (fn j).2 := by
  intro fuel
  induction fuel with
  | zero =>
    intro k hk hkj _hall
    have hkj' : k = j := by omega
    subst hkj'
    rw [retryLoop]
    simp [hfalse]
  | succ fuel ih =>
    intro k hk hkj hall
    by_cases hkj' : k = j
    · subst hkj'
      rw [retryLoop]
      simp [hfalse]
    · have h1 : (fn k).1 = true := hall k (by omega) (by omega)
      have h2 : ¬(m ≠ 0 ∧ k + 1 > m) := by omega
      rw [retryLoop]
      simp only [h1, h2, if_true, if_false, Bool.true_eq_false, ite_false]
      exact ih (k + 1) (by omega) (by omega) (fun i hi hij => hall i (by omega) hij)

/-! ### Helper lemmas about the reference guard loop -/

theorem blockLoop_error (generation : Int) (rq : Nat) (conds : List Condition) :
    ∀ (pre : List (String × Except String (List String))) allRefs resource e post,
      (∀ c ∈ pre, ∃ names, c.2 = Except.ok names) →
      blockLoop generation rq conds allRefs (pre ++ (resource, Except.error e) :: post)
        = (true, { RequeueAfter := rq }, some e,
           SetReconciliationFailed conds generation
             [.withMessage ("Failed reference check (" ++ resource ++ "): " ++ e)]) := by
  intro pre
  induction pre with
  | nil => intro allRefs resource e post _; rfl
  | cons c rest ih =>
    intro allRefs resource e post hpre
    obtain ⟨names, hn⟩ := hpre c (by simp)
    obtain ⟨res1, r1⟩ := c
    simp only at hn
    subst hn
    exact ih _ resource e post (fun c hc => hpre c (by simp [hc]))

theorem blockLoop_ok (generation : Int) (rq : Nat) (conds : List Condition) :
    ∀ (checks : List (String × Except String (List String))) allRefs,
      (∀ c ∈ checks, ∃ names, c.2 = Except.ok names) →
      blockLoop generation rq conds allRefs checks
        = if (allRefs ++ gatherRefs checks).length > 0 then
            (true, { RequeueAfter := rq }, none,
             SetDeletionBlocked conds generation
               [.withMessage
                  ("Still referenced by " ++ formatStrings (allRefs ++ gatherRefs checks))])
          else (false, {}, none, conds) := by
  intro checks
  induction checks with
  | nil => intro allRefs _; simp [blockLoop, gatherRefs]
  | cons c rest ih =>
    intro allRefs hok
    obtain ⟨names, hn⟩ := hok c (by simp)
    obtain ⟨res1, r1⟩ := c
    simp only at hn
    subst hn
    have step : blockLoop generation rq conds allRefs ((res1, Except.ok names) :: rest)
        = blockLoop generation rq conds
            (if names.length > 0 then allRefs ++ names else allRefs) rest := rfl
    rw [step, ih _ (fun c hc => hok c (by simp [hc]))]
    have harr : (if names.length > 0 then allRefs ++ names else allRefs) ++ gatherRefs rest
        = allRefs ++ gatherRefs ((res1, Except.ok names) :: rest) := by
      by_cases h : names.length > 0
      · simp [h, gatherRefs]
      · have hnil : names = [] := by
          cases names with
          | nil => rfl
          | cons a l => simp at h
        simp [hnil, gatherRefs]
    rw [harr]

/-! ### Claim theorems -/

/-- Claim C3: whenever every reference check succeeds and the aggregated set
of referencing names is non-empty, BlockOnAnyReference returns blocked=true
with no error and sets the DeletionBlocked condition naming the blockers; a
check listing failure (after any succeeding checks) also returns blocked=true
with the error surfaced as a failed reconciliation; and the Network delete
path returns the blocked result without reaching rc.Delete — the only place
that invokes the provider deletion or removes the finalizer. -/
theorem blockOnAnyReference_guards_deletion :
    (∀ (conds : List Condition) (generation : Int) (rq : Nat) checks,
      (∀ c ∈ checks, ∃ names, c.2 = Except.ok names) →
      gatherRefs checks ≠ [] →
      BlockOnAnyReference conds generation rq checks
        = (true, { RequeueAfter := rq }, none,
           SetDeletionBlocked conds generation
             [.withMessage ("Still referenced by " ++ formatStrings (gatherRefs checks))]))
    ∧ (∀ (conds : List Condition) (generation : Int) (rq : Nat) pre resource e post,
      (∀ c ∈ pre, ∃ names, c.2 = Except.ok names) →
      BlockOnAnyReference conds generation rq (pre ++ (resource, Except.error e) :: post)
        = (true, { RequeueAfter := rq }, some e,
           SetReconciliationFailed conds generation
             [.withMessage ("Failed reference check (" ++ resource ++ "): " ++ e)]))
    ∧ (∀ (network : Network) (subnets : List Subnet) (natgws : List NATGateway)
        (names1 names2 : List String),
      network.Status.ExternalID ≠ "" →
      SubnetNetworkReferenceCheck (Except.ok subnets) network.Status.ExternalID
        = Except.ok names1 →
      NATGatewayNetworkReferenceCheck (Except.ok natgws) network.Status.ExternalID
        = Except.ok names2 →
      names1 ++ names2 ≠ [] →
      NetworkReconcileDelete network (.ok subnets) (.ok natgws)
        = (.blocked { RequeueAfter := networkRequeueDelay } none,
           SetDeletionBlocked network.Status.Conditions network.Generation
             [.withMessage
                ("Still referenced by " ++ formatStrings (names1 ++ names2))])) := by
  refine ⟨?_, ?_, ?_⟩
  · intro conds generation rq checks hok hne
    rw [BlockOnAnyReference, blockLoop_ok generation rq conds checks [] hok]
    simp only [List.nil_append]
    rw [if_pos (List.length_pos.mpr hne)]
  · intro conds generation rq pre resource e post hpre
    exact blockLoop_error generation rq conds pre [] resource e post hpre
  · intro network subnets natgws names1 names2 hext h1 h2 hne
    have hguard : BlockOnAnyReference network.Status.Conditions network.Generation
        networkRequeueDelay
        [("Subnets", SubnetNetworkReferenceCheck (.ok subnets) network.Status.ExternalID),
         ("NATGateways",
          NATGatewayNetworkReferenceCheck (.ok natgws) network.Status.ExternalID)]
        = (true, { RequeueAfter := networkRequeueDelay }, none,
           SetDeletionBlocked network.Status.Conditions network.Generation
             [.withMessage
                ("Still referenced by " ++ formatStrings (names1 ++ names2))]) := by
      rw [h1, h2, BlockOnAnyReference,
        blockLoop_ok network.Generation networkRequeueDelay network.Status.Conditions
          [("Subnets", Except.ok names1), ("NATGateways", Except.ok names2)] []
          (by
            intro c hc
            simp only [List.mem_cons, List.mem_singleton] at hc
            rcases hc with h | h | h
            · exact ⟨names1, by rw [h]⟩
            · exact ⟨names2, by rw [h]⟩
            · exact absurd h (by simp))]
      have hg : gatherRefs [("Subnets", Except.ok names1), ("NATGateways", Except.ok names2)]
          = names1 ++ (names2 ++ []) := rfl
      rw [hg]
      simp only [List.append_nil, List.nil_append]
      rw [if_pos (List.length_pos.mpr hne)]
    simp only [NetworkReconcileDelete, if_neg hext]
    rw [hguard]
    rfl

/-- Witness for claim C3 at the spec's concrete example: a Network with
external ID net-1 and a sibling Subnet subnet-a whose resolved NetworkID is
net-1; deleting the Network is blocked with the DeletionBlocked condition
naming subnet-a and without reaching rc.Delete. -/
theorem blockOnAnyReference_guards_deletion_witness :
    NetworkReconcileDelete
      ⟨"net", "default", 1, ⟨⟨"pc", ""⟩, "", "10.0.0.0/16", false⟩,
       ⟨[], "net-1", 0, none, none⟩⟩
      (.ok [⟨"subnet-a", "default", 1, ⟨[], "sub-1", ⟨"net-1"⟩⟩⟩])
      (.ok [])
    = (.blocked { RequeueAfter := networkRequeueDelay } none,
       SetDeletionBlocked [] 1
         [.withMessage ("Still referenced by " ++ formatStrings ["subnet-a"])]) := by
  exact blockOnAnyReference_guards_deletion.2.2
    ⟨"net", "default", 1, ⟨⟨"pc", ""⟩, "", "10.0.0.0/16", false⟩,
     ⟨[], "net-1", 0, none, none⟩⟩
    [⟨"subnet-a", "default", 1, ⟨[], "sub-1", ⟨"net-1"⟩⟩⟩] [] ["subnet-a"] []
    (by decide) rfl rfl (by decide)

/-- Claim C6: for every wrapped operation (fn, given by the per-call results)
and every positive MaxAttempts m, if the operation still requests a retry on
every call up to and including call m (past the maximum), retry.Do returns
the sentinel ErrMaxRetriesReached — a value distinct from done(err) for every
operation error err; and if the operation first returns retry=false at some
reachable call j, Do returns exactly that final invocation's error. -/
theorem retryDo_sentinel_and_final_error {E : Type} (fn : Nat → Bool × Option E)
    (m : Nat) (hm : 0 < m) :
    ((∀ i, i ≤ m → (fn i).1 = true) → retryDo fn m = .errMaxRetriesReached)
    ∧ (∀ j, j ≤ m → (∀ i, i < j → (fn i).1 = true) → (fn j).1 = false →
        retryDo fn m = .done (fn j).2)
    ∧ (∀ e : Option E, RetryOutcome.errMaxRetriesReached ≠ RetryOutcome.done e) := by
  refine ⟨?_, ?_, ?_⟩
  · intro hall
    exact retryLoop_sentinel fn m hm m 0 (by omega) hall
  · intro j hj hall hfalse
    exact retryLoop_done fn m j hj hfalse m 0 (by omega) (by omega)
      (fun i _ hij => hall i hij)
  · intro e h
    exact RetryOutcome.noConfusion h

/-- Witness for claim C6 at concrete inputs: an operation that always retries
hits the sentinel with MaxAttempts = 2, and an operation that stops retrying
on its second call returns that call's error. -/
theorem retryDo_sentinel_and_final_error_witness :
    retryDo (fun _ => (true, some 0)) 2 = .errMaxRetriesReached
    ∧ retryDo (fun k => (decide (k = 0), some k)) 2 = .done (some 1) := by
  constructor
  · exact (retryDo_sentinel_and_final_error (fun _ => (true, some 0)) 2
      (by decide)).1 (fun i _ => rfl)
  · exact (retryDo_sentinel_and_final_error (fun k => (decide (k = 0), some k)) 2
      (by decide)).2.1 1 (by decide)
      (fun i hi => by
        have hi0 : i = 0 := by omega
        subst hi0
        rfl)
      (by decide)

/-- Claim C5: a provider client is reused only when the cached entry's
recorded generation and secret version both match the freshly observed
values (and then the cache is untouched); in every other case for the key the
factory is consulted: a construction error is returned with no entry stored,
a constructed client is returned and stored, replacing any prior entry; and
after Invalidate for the key the result of the next GetOrCreate is exactly
the factory outcome, so it can never be the previously cached client. -/
theorem providerCache_getOrCreate_reuse_and_invalidate
    (cache : ProviderCacheMap) (ref : ProviderConfigReference) (dns : String)
    (pc : ProviderConfig) (secretRes : Except StoreErr Secret)
    (factory : Except String Nat) (now : Nat) :
    (∀ entry, cacheFind cache (providerCacheKey ref dns) = some entry →
      entry.configGeneration = pc.Generation →
      entry.secretResourceVersion = secretVersionOf secretRes →
      GetOrCreate cache ref dns (.ok pc) secretRes factory now
        = (.ok (entry.provider, pc), cache))
    ∧ ((∀ entry, cacheFind cache (providerCacheKey ref dns) = some entry →
        ¬(entry.configGeneration = pc.Generation ∧
          entry.secretResourceVersion = secretVersionOf secretRes)) →
      (∀ msg, factory = .error msg →
        GetOrCreate cache ref dns (.ok pc) secretRes factory now
          = (.error (.newClientFailed msg), cache))
      ∧ (∀ pid, factory = .ok pid →
        GetOrCreate cache ref dns (.ok pc) secretRes factory now
          = (.ok (pid, pc),
             cacheSet cache (providerCacheKey ref dns)
               ⟨pid, now, pc.Generation, secretVersionOf secretRes⟩)))
    ∧ ((GetOrCreate (Invalidate cache ref dns) ref dns (.ok pc) secretRes factory now).1
        = match factory with
          | .ok pid => .ok (pid, pc)
          | .error msg => .error (.newClientFailed msg)) := by
  refine ⟨?_, ?_, ?_⟩
  · intro entry hf hg hv
    simp [GetOrCreate, hf, hg, hv]
  · intro hmiss
    constructor
    · intro msg hfac
      subst hfac
      match hfind : cacheFind cache (providerCacheKey ref dns) with
      | none => simp [GetOrCreate, hfind, GetOrCreateNew]
      | some entry =>
        have hne := hmiss entry hfind
        simp [GetOrCreate, hfind, GetOrCreateNew, hne]
    · intro pid hfac
      subst hfac
      match hfind : cacheFind cache (providerCacheKey ref dns) with
      | none => simp [GetOrCreate, hfind, GetOrCreateNew]
      | some entry =>
        have hne := hmiss entry hfind
        simp [GetOrCreate, hfind, GetOrCreateNew, hne]
  · have hfind : cacheFind (Invalidate cache ref dns) (providerCacheKey ref dns) = none := by
      simp [Invalidate, cacheFind_cacheDel_self]
    match hfac : factory with
    | .ok pid => simp [GetOrCreate, hfind, GetOrCreateNew]
    | .error msg => simp [GetOrCreate, hfind, GetOrCreateNew]

/-- Witness for claim C5 at a concrete cache: a matching entry is reused, the
same key after a generation bump stores the factory's client, a construction
error leaves the cache unchanged, and after Invalidate the factory's client
(99), not the cached one (7), is returned. -/
theorem providerCache_getOrCreate_reuse_and_invalidate_witness :
    GetOrCreate [("default/pc", ⟨7, 0, 3, "v1"⟩)] ⟨"pc", ""⟩ "default"
        (.ok ⟨"pc", "default", 3, ⟨⟨"creds"⟩⟩⟩) (.ok ⟨"v1"⟩) (.ok 99) 5
      = (.ok (7, ⟨"pc", "default", 3, ⟨⟨"creds"⟩⟩⟩), [("default/pc", ⟨7, 0, 3, "v1"⟩)])
    ∧ GetOrCreate [("default/pc", ⟨7, 0, 3, "v1"⟩)] ⟨"pc", ""⟩ "default"
        (.ok ⟨"pc", "default", 4, ⟨⟨"creds"⟩⟩⟩) (.ok ⟨"v1"⟩) (.ok 99) 5
      = (.ok (99, ⟨"pc", "default", 4, ⟨⟨"creds"⟩⟩⟩),
         [("default/pc", ⟨99, 5, 4, "v1"⟩)])
    ∧ GetOrCreate [("default/pc", ⟨7, 0, 3, "v1"⟩)] ⟨"pc", ""⟩ "default"
        (.ok ⟨"pc", "default", 4, ⟨⟨"creds"⟩⟩⟩) (.ok ⟨"v1"⟩) (.error "boom") 5
      = (.error (.newClientFailed "boom"), [("default/pc", ⟨7, 0, 3, "v1"⟩)])
    ∧ (GetOrCreate
        (Invalidate [("default/pc", ⟨7, 0, 3, "v1"⟩)] ⟨"pc", ""⟩ "default")
        ⟨"pc", ""⟩ "default"
        (.ok ⟨"pc", "default", 3, ⟨⟨"creds"⟩⟩⟩) (.ok ⟨"v1"⟩) (.ok 99) 5).1
      = .ok (99, ⟨"pc", "default", 3, ⟨⟨"creds"⟩⟩⟩) := by
  refine ⟨?_, ?_, ?_, ?_⟩
  · exact (providerCache_getOrCreate_reuse_and_invalidate
      [("default/pc", ⟨7, 0, 3, "v1"⟩)] ⟨"pc", ""⟩ "default"
      ⟨"pc", "default", 3, ⟨⟨"creds"⟩⟩⟩ (.ok ⟨"v1"⟩) (.ok 99) 5).1
      ⟨7, 0, 3, "v1"⟩ (by decide) (by decide) (by decide)
  · exact ((providerCache_getOrCreate_reuse_and_invalidate
      [("default/pc", ⟨7, 0, 3, "v1"⟩)] ⟨"pc", ""⟩ "default"
      ⟨"pc", "default", 4, ⟨⟨"creds"⟩⟩⟩ (.ok ⟨"v1"⟩) (.ok 99) 5).2.1
      (by decide)).2 99 rfl
  · exact ((providerCache_getOrCreate_reuse_and_invalidate
      [("default/pc", ⟨7, 0, 3, "v1"⟩)] ⟨"pc", ""⟩ "default"
      ⟨"pc", "default", 4, ⟨⟨"creds"⟩⟩⟩ (.ok ⟨"v1"⟩) (.error "boom") 5).2.1
      (by decide)).1 "boom" rfl
  · exact (providerCache_getOrCreate_reuse_and_invalidate
      [("default/pc", ⟨7, 0, 3, "v1"⟩)] ⟨"pc", ""⟩ "default"
      ⟨"pc", "default", 3, ⟨⟨"creds"⟩⟩⟩ (.ok ⟨"v1"⟩) (.ok 99) 5).2.2

/-- Claim C7: with a valid non-empty selector, a listing that matches zero
objects resolves to the no-resources-found error and a listing that matches
two or more resolves to the distinct expected-exactly-one error naming the
match count; in both cases resolution fails before any readiness validation
(the outcome is independent of the matched objects' readiness) and no
external ID is returned, as shown through ResolveNetwork's selector branch. -/
theorem resolveBySelector_ambiguity (sel : LabelSelector)
    (hml : sel.MatchLabels ≠ []) (hconv : sel.ConversionErr = none) :
    (∀ (α : Type), resolveBySelector (α := α) sel (.ok []) = .error .noResourcesFound)
    ∧ (∀ (α : Type) (x y : α) (rest : List α),
        resolveBySelector sel (.ok (x :: y :: rest))
          = .error (.expectedExactlyOne (x :: y :: rest).length))
    ∧ (∀ n, ResolveErr.noResourcesFound ≠ ResolveErr.expectedExactlyOne n)
    ∧ (∀ refGet : Except StoreErr Network,
        ResolveNetwork ⟨none, none, some sel⟩ refGet (.ok [])
          = .error (.selectorFailed "failed to resolve network by selector"
              .noResourcesFound)
        ∧ ∀ x y : Network, ∀ rest : List Network,
          ResolveNetwork ⟨none, none, some sel⟩ refGet (.ok (x :: y :: rest))
            = .error (.selectorFailed "failed to resolve network by selector"
                (.expectedExactlyOne (x :: y :: rest).length))) := by
  refine ⟨?_, ?_, ?_, ?_⟩
  · intro α
    simp [resolveBySelector, hml, hconv]
  · intro α x y rest
    simp [resolveBySelector, hml, hconv]
  · intro n h
    exact ResolveErr.noConfusion h
  · intro refGet
    constructor
    · simp [ResolveNetwork, ResolveNetworkNoID, resolveBySelector, hml, hconv]
    · intro x y rest
      simp [ResolveNetwork, ResolveNetworkNoID, resolveBySelector, hml, hconv]

/-- Counterexample for claim C8 as stated: with the finalizer present, the
provider acquired and not blocked, take orphanOnDelete = false and an empty
external ID. The claim's guard (orphanOnDelete set AND external ID non-empty)
does not hold, so the claim asserts the deletion callback is invoked, but
Reconciler.Delete skips the callback (its guard requires a NON-empty external
ID as well) and proceeds straight to finalizer removal. -/
theorem ReconcilerDelete_callback_counterexample :
    ¬(false = true ∧ ("" : String) ≠ "")
    ∧ (ReconcilerDelete [] 1 30 true false "" .ok none).callbackInvoked = false := by
  constructor
  · decide
  · rfl

/-- Claim C8 (amended): for every invocation of the generic Delete with the
finalizer present and the provider client acquired, the deletion callback is
invoked exactly when orphanOnDelete is unset AND the external ID is
non-empty; on callback success the Deleted condition is set (Synced reason
Deleted), when orphanOnDelete is set the callback is not invoked and the
Orphaned condition is set; the finalizer is removed whenever the callback did
not fail (callback success, orphaning, and the non-orphan empty-ID case) and
retained on callback failure. -/
theorem ReconcilerDelete_orphan_semantics (conditions : List Condition)
    (generation : Int) (requeueAfter : Nat) (orphan : Bool) (extID : String)
    (cbErr : Option String) :
    ((ReconcilerDelete conditions generation requeueAfter true orphan extID .ok
        cbErr).callbackInvoked = true ↔ (orphan = false ∧ extID ≠ ""))
    ∧ (orphan = false → extID ≠ "" → cbErr = none →
        (findStatusCondition
          (ReconcilerDelete conditions generation requeueAfter true orphan extID .ok
            cbErr).conditions condSynced).map Condition.reason = some reasonDeleted
        ∧ (ReconcilerDelete conditions generation requeueAfter true orphan extID .ok
            cbErr).finalizerRemoved = true)
    ∧ (orphan = true →
        (ReconcilerDelete conditions generation requeueAfter true orphan extID .ok
          cbErr).callbackInvoked = false
        ∧ (findStatusCondition
            (ReconcilerDelete conditions generation requeueAfter true orphan extID .ok
              cbErr).conditions condSynced).map Condition.reason = some reasonOrphaned
        ∧ (ReconcilerDelete conditions generation requeueAfter true orphan extID .ok
            cbErr).finalizerRemoved = true)
    ∧ (cbErr = none →
        (ReconcilerDelete conditions generation requeueAfter true orphan extID .ok
          cbErr).finalizerRemoved = true)
    ∧ (∀ msg, cbErr = some msg → orphan = false → extID ≠ "" →
        (ReconcilerDelete conditions generation requeueAfter true orphan extID .ok
          cbErr).finalizerRemoved = false) := by
  refine ⟨?_, ?_, ?_, ?_, ?_⟩
  · by_cases ho : orphan
    · subst ho
      simp [ReconcilerDelete]
    · have ho' : orphan = false := by simpa using ho
      subst ho'
      by_cases hid : extID = ""
      · subst hid
        simp [ReconcilerDelete]
      · cases cbErr <;> simp [ReconcilerDelete, hid]
  · intro ho hid hcb
    subst ho
    subst hcb
    constructor
    · simp [ReconcilerDelete, hid, SetDeleted, find_SetNotReady_at_synced, SetSynced,
        findStatusCondition_setStatusCondition_same, applyOptions, applyOption]
    · simp [ReconcilerDelete, hid]
  · intro ho
    subst ho
    refine ⟨by simp [ReconcilerDelete], ?_, by simp [ReconcilerDelete]⟩
    simp only [ReconcilerDelete]
    simp [SetOrphaned, find_SetNotReady_at_synced, SetSynced,
      findStatusCondition_setStatusCondition_same, applyOptions, applyOption]
  · intro hcb
    subst hcb
    by_cases ho : orphan
    · subst ho
      simp [ReconcilerDelete]
    · have ho' : orphan = false := by simpa using ho
      subst ho'
      by_cases hid : extID = ""
      · subst hid
        simp [ReconcilerDelete]
      · simp [ReconcilerDelete, hid]
  · intro msg hcb ho hid
    subst ho
    subst hcb
    simp [ReconcilerDelete, hid]

/-- Witness for the amended claim C8: with orphanOnDelete unset and external
ID net-1 the callback runs and on success Deleted is set with the finalizer
removed; with orphanOnDelete set the callback is skipped and Orphaned is set. -/
theorem ReconcilerDelete_orphan_semantics_witness :
    ((ReconcilerDelete [] 1 30 true false "net-1" .ok none).callbackInvoked = true
      ↔ (false = false ∧ ("net-1" : String) ≠ ""))
    ∧ (ReconcilerDelete [] 1 30 true false "net-1" .ok none).finalizerRemoved = true
    ∧ (ReconcilerDelete [] 1 30 true true "net-1" .ok none).callbackInvoked = false := by
  refine ⟨?_, ?_, ?_⟩
  · exact (ReconcilerDelete_orphan_semantics [] 1 30 false "net-1" none).1
  · exact ((ReconcilerDelete_orphan_semantics [] 1 30 false "net-1" none).2.1
      rfl (by decide) rfl).2
  · exact ((ReconcilerDelete_orphan_semantics [] 1 30 true "net-1" none).2.2.1 rfl).1

/-- Claim C1 (code bug): the out-of-band deletion recovery is dead code. The
source of provider.GetNetwork maps an SDK 404 to (nil, ErrNotFound), not to
the (nil, nil) the spec's provider boundary prescribes, so for a Network with
external ID net-1 and a non-nil baseline whose external resource is gone,
reconcileUpdate takes the non-nil-error branch: it reports a ProviderError
reconciliation failure and requeues, leaving the external ID and the baseline
untouched, instead of resetting them to re-enter the CREATE path. The final
two conjuncts show the reset branch itself does fire on a (nil, nil) pair —
a pair GetNetwork never produces. -/
theorem networkReconcileUpdate_out_of_band_not_recovered :
    GetNetwork .err404 = (none, some .errNotFound)
    ∧ (NetworkReconcileUpdate
        ⟨"net", "default", 1, ⟨⟨"pc", ""⟩, "d", "10.0.0.0/16", false⟩,
         ⟨[], "net-1", 0, none, some ⟨⟨"pc", ""⟩, "d", "10.0.0.0/16", false⟩⟩⟩
        (GetNetwork .err404) none 0).1.Status.ExternalID = "net-1"
    ∧ (NetworkReconcileUpdate
        ⟨"net", "default", 1, ⟨⟨"pc", ""⟩, "d", "10.0.0.0/16", false⟩,
         ⟨[], "net-1", 0, none, some ⟨⟨"pc", ""⟩, "d", "10.0.0.0/16", false⟩⟩⟩
        (GetNetwork .err404) none 0).1.Status.LastAppliedSpec
      = some ⟨⟨"pc", ""⟩, "d", "10.0.0.0/16", false⟩
    ∧ (findStatusCondition (NetworkReconcileUpdate
        ⟨"net", "default", 1, ⟨⟨"pc", ""⟩, "d", "10.0.0.0/16", false⟩,
         ⟨[], "net-1", 0, none, some ⟨⟨"pc", ""⟩, "d", "10.0.0.0/16", false⟩⟩⟩
        (GetNetwork .err404) none 0).1.Status.Conditions condSynced).map
        Condition.reason = some reasonProviderError
    ∧ (NetworkReconcileUpdate
        ⟨"net", "default", 1, ⟨⟨"pc", ""⟩, "d", "10.0.0.0/16", false⟩,
         ⟨[], "net-1", 0, none, some ⟨⟨"pc", ""⟩, "d", "10.0.0.0/16", false⟩⟩⟩
        (GetNetwork .err404) none 0).2 = { RequeueAfter := networkRequeueDelay }
    ∧ (NetworkReconcileUpdate
        ⟨"net", "default", 1, ⟨⟨"pc", ""⟩, "d", "10.0.0.0/16", false⟩,
         ⟨[], "net-1", 0, none, some ⟨⟨"pc", ""⟩, "d", "10.0.0.0/16", false⟩⟩⟩
        (none, none) none 0).1.Status.ExternalID = ""
    ∧ (NetworkReconcileUpdate
        ⟨"net", "default", 1, ⟨⟨"pc", ""⟩, "d", "10.0.0.0/16", false⟩,
         ⟨[], "net-1", 0, none, some ⟨⟨"pc", ""⟩, "d", "10.0.0.0/16", false⟩⟩⟩
        (none, none) none 0).1.Status.LastAppliedSpec = none := by
  refine ⟨rfl, rfl, rfl, ?_, rfl, rfl, rfl⟩
  decide

/-- Claim C2 (code bug): resolving a NATGateway or PublicIP dependency via
the selector variant never yields the matched object's external ID — the sole
ready match (here a NATGateway with external ID nat-1, resp. a PublicIP with
pip-1) falls into checkReadinessAndGetID's default case and produces the
unhandled-dependency-type error; and the direct-reference variant fetches a
SecurityGroup-typed object (copy-paste in the source), whose external ID
(sg-9) is what gets returned. -/
theorem resolveNATGatewayPublicIP_unhandled_kind :
    ResolveNATGateway ⟨none, none, some ⟨[("app", "x")], none⟩⟩ (.error .notFound)
        (.ok [⟨"ngw", "d", 1, ⟨[⟨condReady, true, "Ready", "", 0⟩], "nat-1", ⟨"", ""⟩⟩⟩])
      = .error (.unhandledDependencyType "NATGateway")
    ∧ ResolvePublicIP ⟨none, none, some ⟨[("app", "x")], none⟩⟩ (.error .notFound)
        (.ok [⟨"pip", "d", 1, ⟨[⟨condReady, true, "Ready", "", 0⟩], "pip-1"⟩⟩])
      = .error (.unhandledDependencyType "PublicIP")
    ∧ ResolveNATGateway ⟨none, some ⟨"ngw-ref"⟩, none⟩
        (.ok ⟨"sg", "d", 1, ⟨[⟨condReady, true, "Ready", "", 0⟩], "sg-9"⟩⟩)
        (.ok [])
      = .ok "sg-9"
    ∧ ResolvePublicIP ⟨none, some ⟨"pip-ref"⟩, none⟩
        (.ok ⟨"sg", "d", 1, ⟨[⟨condReady, true, "Ready", "", 0⟩], "sg-9"⟩⟩)
        (.ok [])
      = .ok "sg-9" :=
  ⟨rfl, rfl, rfl, rfl⟩

/-- Witness for claim C7 at a concrete selector and concrete Networks: zero
matches yield the not-found error, two matches yield the ambiguity error
naming the count 2. -/
theorem resolveBySelector_ambiguity_witness :
    resolveBySelector (α := Network) ⟨[("app", "x")], none⟩ (.ok [])
      = .error .noResourcesFound
    ∧ ResolveNetwork ⟨none, none, some ⟨[("app", "x")], none⟩⟩ (.error .notFound)
        (.ok [⟨"a", "d", 1, ⟨⟨"pc", ""⟩, "", "10.0.0.0/16", false⟩, ⟨[], "n-1", 0, none, none⟩⟩,
              ⟨"b", "d", 1, ⟨⟨"pc", ""⟩, "", "10.0.0.0/16", false⟩, ⟨[], "n-2", 0, none, none⟩⟩])
      = .error (.selectorFailed "failed to resolve network by selector"
          (.expectedExactlyOne 2)) := by
  constructor
  · exact (resolveBySelector_ambiguity ⟨[("app", "x")], none⟩ (by decide) rfl).1 Network
  · exact ((resolveBySelector_ambiguity ⟨[("app", "x")], none⟩ (by decide) rfl).2.2.2
      (.error .notFound)).2
      ⟨"a", "d", 1, ⟨⟨"pc", ""⟩, "", "10.0.0.0/16", false⟩, ⟨[], "n-1", 0, none, none⟩⟩
      ⟨"b", "d", 1, ⟨⟨"pc", ""⟩, "", "10.0.0.0/16", false⟩, ⟨[], "n-2", 0, none, none⟩⟩
      []

/-- Claim C4: for every starting condition set, observed generation and
reason/message overrides, SetProvisioned leaves Synced with status true and
Ready with status true, and SetDeletionBlocked leaves Synced with status
false and Ready with status false (SetProvisioned takes no overrides in the
source; SetDeletionBlocked takes the full list). -/
theorem SetProvisioned_SetDeletionBlocked_composites
    (conditions : List Condition) (generation : Int) (opts : List ConditionOption) :
    ((findStatusCondition (SetProvisioned conditions generation) condSynced).map
        Condition.status = some true
      ∧ (findStatusCondition (SetProvisioned conditions generation) condReady).map
        Condition.status = some true)
    ∧ ((findStatusCondition (SetDeletionBlocked conditions generation opts) condSynced).map
        Condition.status = some false
      ∧ (findStatusCondition (SetDeletionBlocked conditions generation opts) condReady).map
        Condition.status = some false) := by
  refine ⟨⟨?_, ?_⟩, ?_, ?_⟩
  · rw [SetProvisioned, find_SetReady_at_synced]
    exact find_SetSynced_at_synced _ _ _
  · rw [SetProvisioned]
    exact find_SetReady_at_ready _ _ _
  · rw [SetDeletionBlocked, find_SetNotReady_at_synced]
    exact find_SetNotSynced_at_synced _ _ _
  · rw [SetDeletionBlocked]
    exact find_SetNotReady_at_ready _ _ _

/-- Claim C9: the drift detectors of SNATRule, SecurityGroupRule and PublicIP
are stubs: for every object (hence for every current spec and every non-nil
baseline) they return the zero-valued update request and needsUpdate = false,
so no spec mutation ever triggers an update call after creation. -/
theorem detectDrift_stubs_report_no_drift (s : SNATRule) (p : PublicIP)
    (g : SecurityGroupRule) :
    SNATRuleDetectDrift s = (⟨⟩, false)
    ∧ PublicIPDetectDrift p = (⟨⟩, false)
    ∧ SecurityGroupRuleDetectDrift g = (⟨""⟩, false) :=
  ⟨rfl, rfl, rfl⟩

/-- Claim C10: a dependency whose explicit-ID variant holds a non-nil pointer
to the empty string, with nil reference and selector variants, is treated as
absent: the resolver falls through every case of its switch and returns the
malformed-dependency error, for every store/listing environment (shown for
the three modelled resolvers). -/
theorem resolve_emptyID_falls_to_default
    (refGetN : Except StoreErr Network) (selListN : Except String (List Network))
    (refGetG : Except StoreErr SecurityGroup)
    (selListG : Except String (List NATGateway))
    (selListP : Except String (List PublicIP)) :
    ResolveNetwork ⟨some "", none, none⟩ refGetN selListN
      = .error (.noneSpecified "no network specified")
    ∧ ResolveNATGateway ⟨some "", none, none⟩ refGetG selListG
      = .error (.noneSpecified "no NAT gateway specified")
    ∧ ResolvePublicIP ⟨some "", none, none⟩ refGetG selListP
      = .error (.noneSpecified "no public IP specified") :=
  ⟨rfl, rfl, rfl⟩

end Otc
